import Mathlib

/-!
Shallow embedding of the `googlemaps` platform-detection crate
(`src/lib.rs`). The crate classifies the host environment into three
taxonomies (operating system, CPU architecture, window system) with three
pure detector functions. Each detector reads ambient signals:

* `std::env::consts::OS` — embedded as an explicit `os : String` argument;
* compile-time `cfg!(target_env = ...)` / `cfg!(target_os = ...)` probes —
  embedded as explicit `target_env target_os : String` arguments, with each
  `cfg!` test becoming an equality test against the corresponding literal
  (Rust's target_env / target_os are each a single configuration string);
* `std::env::consts::ARCH` — embedded as an explicit `arch : String`;
* `std::env::var("X")` — embedded as fields of an `EnvVars` record of type
  `Option String`, where `none` models `Err` (variable absent) and
  `some v` models `Ok(v)`.
-/

/-- Linux-based operating system kernels (`enum LinuxKernel`). -/
inductive LinuxKernel where
  | NormalLinuxGnu
  | NormalLinuxMusl
  | Android
  | ChromeOS
deriving DecidableEq, Repr

/-- Darwin-based operating systems (`enum DarwinKernel`). -/
inductive DarwinKernel where
  | MacOSGreaterThan9
  | IOS
  | IPadOs
  | WatchOS
  | TVOS
deriving DecidableEq, Repr

/-- Unix-like operating systems (`enum UnixLike`). -/
inductive UnixLike where
  | Linux (k : LinuxKernel)
  | Darwin (k : DarwinKernel)
  | BSD
  | SolarisOrUhOopsIMeanIllumos
deriving DecidableEq, Repr

/-- NT-kernel operating systems (`enum NTKernel`). -/
inductive NTKernel where
  | Windows
  | WindowsServer
deriving DecidableEq, Repr

/-- Top-level operating-system taxonomy (`enum OperatingSystem`). -/
inductive OperatingSystem where
  | UnixLike (u : UnixLike)
  | Windows (k : NTKernel)
  | DOS
  | Unknown
deriving DecidableEq, Repr

/-- x86 CPU variants (`enum X86`). -/
inductive X86 where
  | AMD64
  | I386
  | I486
  | I586
  | I686
  | EightyEightySix
deriving DecidableEq, Repr

/-- ARM CPU variants (`enum ARM`). -/
inductive ARM where
  | AArch32
  | AArch64
  | AppleSilicon
deriving DecidableEq, Repr

/-- MIPS CPU variants (`enum MIPS`). -/
inductive MIPS where
  | MipsI
  | MipsII
  | MipsIII
  | MipsIV
  | MipsV
  | Mips32
  | Mips64
deriving DecidableEq, Repr

/-- Top-level CPU taxonomy (`enum CPU`). -/
inductive CPU where
  | X86 (v : X86)
  | ARM (v : ARM)
  | MIPS (v : MIPS)
  | PowerPC
  | SPARC
  | RISC
  | RISCV
  | Alpha
  | IA64
  | HPPA
  | S390
  | S390X
  | SuperH
  | SystemZ
  | XCore
  | Other
deriving DecidableEq, Repr

/-- Window-system taxonomy (`enum WindowSystem`). -/
inductive WindowSystem where
  | X11
  | Wayland
  | ExplorerDotExe
  | Quartz
  | Unknown
  | None
deriving DecidableEq, Repr

/-- The three environment variables consulted by `detect_windowsystem`.
`none` models `std::env::var` returning `Err` (variable absent or
non-unicode); `some v` models `Ok(v)`. -/
structure EnvVars where
  DISPLAY : Option String
  WAYLAND_DISPLAY : Option String
  XDG_SESSION_TYPE : Option String
deriving DecidableEq, Repr

/-- Embedding of `detect_os` from `src/lib.rs` (lines 120–166): dispatch on
`std::env::consts::OS`, with the `"linux"` branch refined by
`cfg!(target_env = "gnu"/"musl")` and the `"macos"` branch refined by
`cfg!(target_os = ...)` probes in source order. -/
def detect_os (os target_env target_os : String) : OperatingSystem :=
  match os with
  | "linux" =>
      let kernel :=
        if target_env = "gnu" then LinuxKernel.NormalLinuxGnu
        else if target_env = "musl" then LinuxKernel.NormalLinuxMusl
        else LinuxKernel.NormalLinuxGnu
      OperatingSystem.UnixLike (UnixLike.Linux kernel)
  | "macos" =>
      let kernel :=
        if target_os = "ios" then DarwinKernel.IOS
        else if target_os = "macos" then DarwinKernel.MacOSGreaterThan9
        else if target_os = "ipados" then DarwinKernel.IPadOs
        else if target_os = "watchos" then DarwinKernel.WatchOS
        else if target_os = "tvos" then DarwinKernel.TVOS
        else DarwinKernel.MacOSGreaterThan9
      OperatingSystem.UnixLike (UnixLike.Darwin kernel)
  | "windows" => OperatingSystem.Windows NTKernel.Windows
  | "freebsd" | "netbsd" | "openbsd" | "dragonfly" =>
      OperatingSystem.UnixLike UnixLike.BSD
  | "solaris" | "illumos" =>
      OperatingSystem.UnixLike UnixLike.SolarisOrUhOopsIMeanIllumos
  | "dos" => OperatingSystem.DOS
  | "android" => OperatingSystem.UnixLike (UnixLike.Linux LinuxKernel.Android)
  | "ios" => OperatingSystem.UnixLike (UnixLike.Darwin DarwinKernel.IOS)
  | _ => OperatingSystem.Unknown

/-- Embedding of `detect_architecture` from `src/lib.rs` (lines 169–195): exact-match
dispatch on `std::env::consts::ARCH`. -/
def detect_architecture (arch : String) : CPU :=
  match arch with
  | "x86_64" => CPU.X86 X86.AMD64
  | "i386" => CPU.X86 X86.I386
  | "i486" => CPU.X86 X86.I486
  | "i586" => CPU.X86 X86.I586
  | "i686" => CPU.X86 X86.I686
  | "8086" => CPU.X86 X86.EightyEightySix
  | "arm" => CPU.ARM ARM.AArch32
  | "aarch64" => CPU.ARM ARM.AArch64
  | "mips" => CPU.MIPS MIPS.Mips32
  | "mips64" => CPU.MIPS MIPS.Mips64
  | "powerpc" => CPU.PowerPC
  | "sparc" => CPU.SPARC
  | "risc" => CPU.RISC
  | "riscv" => CPU.RISCV
  | "alpha" => CPU.Alpha
  | "ia64" => CPU.IA64
  | "hppa" => CPU.HPPA
  | "s390" => CPU.S390
  | "s390x" => CPU.S390X
  | "sh" => CPU.SuperH
  | "systemz" => CPU.SystemZ
  | "xcore" => CPU.XCore
  | _ => CPU.Other

/-- Embedding of `detect_windowsystem` from `src/lib.rs` (lines 198–222): dispatch on
`std::env::consts::OS`; the `"linux"` branch first returns `None` when
neither `DISPLAY` nor `WAYLAND_DISPLAY` is readable, then compares
`XDG_SESSION_TYPE` (defaulting to `"x11"` when absent) against
`"wayland"`. -/
def detect_windowsystem (os : String) (env : EnvVars) : WindowSystem :=
  match os with
  | "linux" =>
      if !env.DISPLAY.isSome && !env.WAYLAND_DISPLAY.isSome then
        WindowSystem.None
      else
        let session_type := env.XDG_SESSION_TYPE.getD "x11"
        if session_type = "wayland" then WindowSystem.Wayland
        else WindowSystem.X11
  | "macos" => WindowSystem.Quartz
  | "windows" => WindowSystem.ExplorerDotExe
  | _ => WindowSystem.Unknown

/-- Unfolding lemma: the `"linux"` branch of `detect_os` written out. -/
theorem detect_os_linux_eq (e o : String) :
    detect_os "linux" e o =
      OperatingSystem.UnixLike (UnixLike.Linux
        (if e = "gnu" then LinuxKernel.NormalLinuxGnu
         else if e = "musl" then LinuxKernel.NormalLinuxMusl
         else LinuxKernel.NormalLinuxGnu)) := rfl

/-- Unfolding lemma: the `"macos"` branch of `detect_os` written out. -/
theorem detect_os_macos_eq (e o : String) :
    detect_os "macos" e o =
      OperatingSystem.UnixLike (UnixLike.Darwin
        (if o = "ios" then DarwinKernel.IOS
         else if o = "macos" then DarwinKernel.MacOSGreaterThan9
         else if o = "ipados" then DarwinKernel.IPadOs
         else if o = "watchos" then DarwinKernel.WatchOS
         else if o = "tvos" then DarwinKernel.TVOS
         else DarwinKernel.MacOSGreaterThan9)) := rfl

/-- Unfolding lemma: the `"linux"` branch of `detect_windowsystem` written out. -/
theorem detect_windowsystem_linux_eq (env : EnvVars) :
    detect_windowsystem "linux" env =
      (if !env.DISPLAY.isSome && !env.WAYLAND_DISPLAY.isSome then
        WindowSystem.None
      else if env.XDG_SESSION_TYPE.getD "x11" = "wayland" then
        WindowSystem.Wayland
      else WindowSystem.X11) := rfl

/-- List of the platform names handled by a non-default arm of `detect_os`. -/
def osNames : List String :=
  ["linux", "macos", "windows", "freebsd", "netbsd", "openbsd", "dragonfly",
   "solaris", "illumos", "dos", "android", "ios"]

/-- List of the architecture names handled by a non-default arm of
`detect_architecture`. -/
def archNames : List String :=
  ["x86_64", "i386", "i486", "i586", "i686", "8086", "arm", "aarch64",
   "mips", "mips64", "powerpc", "sparc", "risc", "riscv", "alpha", "ia64",
   "hppa", "s390", "s390x", "sh", "systemz", "xcore"]

/-- C1: for every platform string, `detect_os` follows the documented
dispatch table: `"windows"` maps to `Windows NTKernel.Windows`; each BSD
name maps to `UnixLike BSD`; `"solaris"` and `"illumos"` map to the
Solaris/Illumos variant; `"dos"` maps to `DOS`; `"android"` maps to
`UnixLike (Linux Android)`; `"ios"` maps to `UnixLike (Darwin IOS)`; and
any string not in the dispatch table (so also not `"linux"` or `"macos"`)
maps to `Unknown`, regardless of the secondary `target_env` / `target_os`
signals. -/
theorem detect_os_dispatch_table :
    (∀ e o, detect_os "windows" e o = OperatingSystem.Windows NTKernel.Windows) ∧
    (∀ e o, detect_os "freebsd" e o = OperatingSystem.UnixLike UnixLike.BSD) ∧
    (∀ e o, detect_os "netbsd" e o = OperatingSystem.UnixLike UnixLike.BSD) ∧
    (∀ e o, detect_os "openbsd" e o = OperatingSystem.UnixLike UnixLike.BSD) ∧
    (∀ e o, detect_os "dragonfly" e o = OperatingSystem.UnixLike UnixLike.BSD) ∧
    (∀ e o, detect_os "solaris" e o =
      OperatingSystem.UnixLike UnixLike.SolarisOrUhOopsIMeanIllumos) ∧
    (∀ e o, detect_os "illumos" e o =
      OperatingSystem.UnixLike UnixLike.SolarisOrUhOopsIMeanIllumos) ∧
    (∀ e o, detect_os "dos" e o = OperatingSystem.DOS) ∧
    (∀ e o, detect_os "android" e o =
      OperatingSystem.UnixLike (UnixLike.Linux LinuxKernel.Android)) ∧
    (∀ e o, detect_os "ios" e o =
      OperatingSystem.UnixLike (UnixLike.Darwin DarwinKernel.IOS)) ∧
    (∀ s e o, s ∉ osNames → detect_os s e o = OperatingSystem.Unknown) := by
  refine ⟨fun e o => rfl, fun e o => rfl, fun e o => rfl, fun e o => rfl,
    fun e o => rfl, fun e o => rfl, fun e o => rfl, fun e o => rfl,
    fun e o => rfl, fun e o => rfl, fun s e o h => ?_⟩
  unfold detect_os
  split <;> simp_all [osNames]

/-- Closed witness for C1: the unlisted platform string `"plan9"` maps to
`Unknown`. -/
theorem detect_os_dispatch_table_witness :
    detect_os "plan9" "gnu" "linux" = OperatingSystem.Unknown :=
  detect_os_dispatch_table.2.2.2.2.2.2.2.2.2.2 "plan9" "gnu" "linux" (by decide)

/-- C2: `detect_architecture` realizes the documented architecture table,
and every string outside the table maps to `Other`. -/
theorem detect_architecture_table :
    detect_architecture "x86_64" = CPU.X86 X86.AMD64 ∧
    detect_architecture "i386" = CPU.X86 X86.I386 ∧
    detect_architecture "i486" = CPU.X86 X86.I486 ∧
    detect_architecture "i586" = CPU.X86 X86.I586 ∧
    detect_architecture "i686" = CPU.X86 X86.I686 ∧
    detect_architecture "8086" = CPU.X86 X86.EightyEightySix ∧
    detect_architecture "arm" = CPU.ARM ARM.AArch32 ∧
    detect_architecture "aarch64" = CPU.ARM ARM.AArch64 ∧
    detect_architecture "mips" = CPU.MIPS MIPS.Mips32 ∧
    detect_architecture "mips64" = CPU.MIPS MIPS.Mips64 ∧
    detect_architecture "powerpc" = CPU.PowerPC ∧
    detect_architecture "sparc" = CPU.SPARC ∧
    detect_architecture "risc" = CPU.RISC ∧
    detect_architecture "riscv" = CPU.RISCV ∧
    detect_architecture "alpha" = CPU.Alpha ∧
    detect_architecture "ia64" = CPU.IA64 ∧
    detect_architecture "hppa" = CPU.HPPA ∧
    detect_architecture "s390" = CPU.S390 ∧
    detect_architecture "s390x" = CPU.S390X ∧
    detect_architecture "sh" = CPU.SuperH ∧
    detect_architecture "systemz" = CPU.SystemZ ∧
    detect_architecture "xcore" = CPU.XCore ∧
    (∀ s, s ∉ archNames → detect_architecture s = CPU.Other) := by
  refine ⟨rfl, rfl, rfl, rfl, rfl, rfl, rfl, rfl, rfl, rfl, rfl, rfl, rfl,
    rfl, rfl, rfl, rfl, rfl, rfl, rfl, rfl, rfl, fun s h => ?_⟩
  unfold detect_architecture
  split <;> simp_all [archNames]

/-- Closed witness for C2: the unlisted architecture string
`"nonexistent-arch"` maps to `Other`. -/
theorem detect_architecture_table_witness :
    detect_architecture "nonexistent-arch" = CPU.Other :=
  detect_architecture_table.2.2.2.2.2.2.2.2.2.2.2.2.2.2.2.2.2.2.2.2.2.2
    "nonexistent-arch" (by decide)

/-- C3: on `"linux"`, when at least one of `DISPLAY` or `WAYLAND_DISPLAY`
is present, `detect_windowsystem` returns `Wayland` exactly when
`XDG_SESSION_TYPE` is present with the exact value `"wayland"`, and `X11`
for every other value of `XDG_SESSION_TYPE`, including absence (absence
defaults to the literal string `"x11"`). -/
theorem detect_windowsystem_linux_session (env : EnvVars)
    (h : env.DISPLAY.isSome ∨ env.WAYLAND_DISPLAY.isSome) :
    (detect_windowsystem "linux" env = WindowSystem.Wayland ↔
      env.XDG_SESSION_TYPE = some "wayland") ∧
    (env.XDG_SESSION_TYPE ≠ some "wayland" →
      detect_windowsystem "linux" env = WindowSystem.X11) := by
  have hcond : (!env.DISPLAY.isSome && !env.WAYLAND_DISPLAY.isSome) = false := by
    rcases h with h | h <;> simp [h]
  rw [detect_windowsystem_linux_eq, hcond]
  cases hx : env.XDG_SESSION_TYPE with
  | none => simp [hx]
  | some v => by_cases hv : v = "wayland" <;> simp [hx, hv]

/-- Closed witness for C3: with `DISPLAY` set and
`XDG_SESSION_TYPE="wayland"`, the result is `Wayland`. -/
theorem detect_windowsystem_linux_session_witness :
    detect_windowsystem "linux" ⟨some ":0", none, some "wayland"⟩ =
      WindowSystem.Wayland :=
  (detect_windowsystem_linux_session ⟨some ":0", none, some "wayland"⟩
    (Or.inl rfl)).1.mpr rfl

/-- C4: on `"linux"`, when neither `DISPLAY` nor `WAYLAND_DISPLAY` is
present, `detect_windowsystem` returns `None` regardless of
`XDG_SESSION_TYPE` (the headless check comes first). -/
theorem detect_windowsystem_linux_headless (env : EnvVars)
    (hd : env.DISPLAY = none) (hw : env.WAYLAND_DISPLAY = none) :
    detect_windowsystem "linux" env = WindowSystem.None := by
  rw [detect_windowsystem_linux_eq]
  simp [hd, hw]

/-- Closed witness for C4: no display variables but
`XDG_SESSION_TYPE="wayland"` still yields `None`. -/
theorem detect_windowsystem_linux_headless_witness :
    detect_windowsystem "linux" ⟨none, none, some "wayland"⟩ =
      WindowSystem.None :=
  detect_windowsystem_linux_headless ⟨none, none, some "wayland"⟩ rfl rfl

/-- C5: on `"linux"`, `detect_os` returns `UnixLike (Linux k)` with `k`
decided by the C-library ABI signal: `"gnu"` yields `NormalLinuxGnu`,
`"musl"` yields `NormalLinuxMusl`, and any other value falls back to
`NormalLinuxGnu`. -/
theorem detect_os_linux_abi (e o : String) :
    (e = "gnu" →
      detect_os "linux" e o =
        OperatingSystem.UnixLike (UnixLike.Linux LinuxKernel.NormalLinuxGnu)) ∧
    (e = "musl" →
      detect_os "linux" e o =
        OperatingSystem.UnixLike (UnixLike.Linux LinuxKernel.NormalLinuxMusl)) ∧
    (e ≠ "gnu" → e ≠ "musl" →
      detect_os "linux" e o =
        OperatingSystem.UnixLike (UnixLike.Linux LinuxKernel.NormalLinuxGnu)) := by
  rw [detect_os_linux_eq]
  refine ⟨fun h => by simp [h], fun h => ?_, fun h1 h2 => by simp [h1, h2]⟩
  subst h
  simp

/-- Closed witness for C5: the musl ABI yields `NormalLinuxMusl`. -/
theorem detect_os_linux_abi_witness :
    detect_os "linux" "musl" "linux" =
      OperatingSystem.UnixLike (UnixLike.Linux LinuxKernel.NormalLinuxMusl) :=
  (detect_os_linux_abi "musl" "linux").2.1 rfl

/-- C6: on `"macos"`, `detect_os` returns `UnixLike (Darwin k)` with `k`
picked by checking the `target_os` signal in the priority order ios,
macos, ipados, watchos, tvos (first match wins), defaulting to
`MacOSGreaterThan9` when none matches. -/
theorem detect_os_macos_darwin (e o : String) :
    (o = "ios" →
      detect_os "macos" e o =
        OperatingSystem.UnixLike (UnixLike.Darwin DarwinKernel.IOS)) ∧
    (o ≠ "ios" → o = "macos" →
      detect_os "macos" e o =
        OperatingSystem.UnixLike (UnixLike.Darwin DarwinKernel.MacOSGreaterThan9)) ∧
    (o ≠ "ios" → o ≠ "macos" → o = "ipados" →
      detect_os "macos" e o =
        OperatingSystem.UnixLike (UnixLike.Darwin DarwinKernel.IPadOs)) ∧
    (o ≠ "ios" → o ≠ "macos" → o ≠ "ipados" → o = "watchos" →
      detect_os "macos" e o =
        OperatingSystem.UnixLike (UnixLike.Darwin DarwinKernel.WatchOS)) ∧
    (o ≠ "ios" → o ≠ "macos" → o ≠ "ipados" → o ≠ "watchos" → o = "tvos" →
      detect_os "macos" e o =
        OperatingSystem.UnixLike (UnixLike.Darwin DarwinKernel.TVOS)) ∧
    (o ∉ (["ios", "macos", "ipados", "watchos", "tvos"] : List String) →
      detect_os "macos" e o =
        OperatingSystem.UnixLike (UnixLike.Darwin DarwinKernel.MacOSGreaterThan9)) := by
  rw [detect_os_macos_eq]
  refine ⟨fun h1 => by simp [h1], fun h1 h2 => by simp [h1, h2],
    fun h1 h2 h3 => by simp [h1, h2, h3],
    fun h1 h2 h3 h4 => by simp [h1, h2, h3, h4],
    fun h1 h2 h3 h4 h5 => by simp [h1, h2, h3, h4, h5],
    fun h => ?_⟩
  simp only [List.mem_cons, List.not_mem_nil, or_false, not_or] at h
  obtain ⟨h1, h2, h3, h4, h5⟩ := h
  simp [h1, h2, h3, h4, h5]

/-- Closed witness for C6: `target_os = "watchos"` (with the earlier
probes non-matching) yields `WatchOS`. -/
theorem detect_os_macos_darwin_witness :
    detect_os "macos" "gnu" "watchos" =
      OperatingSystem.UnixLike (UnixLike.Darwin DarwinKernel.WatchOS) :=
  (detect_os_macos_darwin "gnu" "watchos").2.2.2.1 (by decide) (by decide)
    (by decide) rfl

/-- C7: outside the `"linux"` branch, `detect_windowsystem` ignores the
environment: `"macos"` always yields `Quartz`, `"windows"` always yields
`ExplorerDotExe`, every other platform string yields `Unknown`, and for
any platform other than `"linux"` the result does not depend on the
environment variables at all. -/
theorem detect_windowsystem_nonlinux :
    (∀ env, detect_windowsystem "macos" env = WindowSystem.Quartz) ∧
    (∀ env, detect_windowsystem "windows" env = WindowSystem.ExplorerDotExe) ∧
    (∀ s env, s ∉ (["linux", "macos", "windows"] : List String) →
      detect_windowsystem s env = WindowSystem.Unknown) ∧
    (∀ s, s ≠ "linux" → ∀ env env2,
      detect_windowsystem s env = detect_windowsystem s env2) := by
  refine ⟨fun env => rfl, fun env => rfl, fun s env h => ?_, fun s h env env2 => ?_⟩
  · unfold detect_windowsystem
    split <;> simp_all
  · unfold detect_windowsystem
    split <;> simp_all

/-- Closed witness for C7: the platform string `"freebsd"` yields
`Unknown` whatever the environment holds. -/
theorem detect_windowsystem_nonlinux_witness :
    detect_windowsystem "freebsd" ⟨some ":0", some "wl", some "wayland"⟩ =
      WindowSystem.Unknown :=
  detect_windowsystem_nonlinux.2.2.1 "freebsd"
    ⟨some ":0", some "wl", some "wayland"⟩ (by decide)

/-- C8: all three detectors are total. In this embedding each detector is
a total function translated from an exhaustive Rust `match` whose default
arm is a catch-all variant, so for every combination of ambient inputs
(platform string, secondary signals, architecture string, and arbitrary
presence/values of the three environment variables) each detector yields
a defined taxonomy value and has no failure outcome. -/
theorem detectors_total :
    (∀ os e o, ∃ r : OperatingSystem, detect_os os e o = r) ∧
    (∀ a, ∃ r : CPU, detect_architecture a = r) ∧
    (∀ os env, ∃ r : WindowSystem, detect_windowsystem os env = r) :=
  ⟨fun os e o => ⟨detect_os os e o, rfl⟩,
   fun a => ⟨detect_architecture a, rfl⟩,
   fun os env => ⟨detect_windowsystem os env, rfl⟩⟩

/-- C9: the documented-unreachable variants are never produced:
`detect_os` never returns `Windows WindowsServer`, and
`detect_architecture` never returns `ARM AppleSilicon` or any of
`MIPS MipsI` through `MIPS MipsV`, for any input strings. -/
theorem detectors_unreachable_variants (os e o a : String) :
    detect_os os e o ≠ OperatingSystem.Windows NTKernel.WindowsServer ∧
    detect_architecture a ≠ CPU.ARM ARM.AppleSilicon ∧
    detect_architecture a ≠ CPU.MIPS MIPS.MipsI ∧
    detect_architecture a ≠ CPU.MIPS MIPS.MipsII ∧
    detect_architecture a ≠ CPU.MIPS MIPS.MipsIII ∧
    detect_architecture a ≠ CPU.MIPS MIPS.MipsIV ∧
    detect_architecture a ≠ CPU.MIPS MIPS.MipsV := by
  refine ⟨?_, ?_, ?_, ?_, ?_, ?_, ?_⟩ <;>
    first
      | (unfold detect_os; split <;> simp)
      | (unfold detect_architecture; split <;> simp)

/-- C10: `detect_os` never returns `UnixLike (Linux ChromeOS)`: the
`ChromeOS` variant of `LinuxKernel` is unreachable from the detector for
every platform string and every ABI signal. -/
theorem detect_os_never_chromeos (os e o : String) :
    detect_os os e o ≠ OperatingSystem.UnixLike (UnixLike.Linux LinuxKernel.ChromeOS) := by
  unfold detect_os
  split <;> simp
  split_ifs <;> simp
